import Mathlib

/-!
Verification of the investment-calculator engine (src/src/App.vue).

The engine is a pure computation over JavaScript numbers.  We embed it
shallowly: JS numbers are idealised as real numbers (exact arithmetic, no
rounding error, no overflow), `Math.pow` is `Real.rpow`, `Math.round` is
rounding half toward positive infinity.  Years and whole-unit outputs are
integers; rates entered as percents are rationals.  A second model
(`calcFromN` and friends, suffix `N`) tracks the JS special value `NaN`
with `Option ℝ` (`none` = NaN) for the safety claim about non-finite
results: `Math.pow` of a negative base with a fractional exponent is NaN
in JS, and NaN is absorbing for arithmetic.
-/

set_option maxHeartbeats 1000000

/-- JS `Math.round`: round half toward positive infinity. -/
noncomputable def jsRound (x : ℝ) : ℤ := ⌊x + 1/2⌋

/-- JS `Number.prototype.toFixed(1)` for a nonnegative value, rendered in
tenths: round half up to one decimal and print.  (The engine only applies
it to nonnegative tax rates.) -/
noncomputable def toFixed1 (x : ℝ) : String :=
  let t : ℤ := ⌊x * 10 + 1/2⌋
  toString (t / 10) ++ "." ++ toString (t % 10)

/-- A yield phase row: a year window with a fixed annual percent rate.
Mirrors the `yieldPhases` entries of the source. -/
structure YieldPhase where
  startYear : ℤ
  endYear : ℤ
  rate : ℚ
  customDuration : Bool
deriving DecidableEq

/-- A transaction row.  `type` is the raw JS string (`"monthly"` or
`"once"` in well-formed input, but the engine receives whatever string the
caller stored). -/
structure Transaction where
  amount : ℝ
  type : String
  startYear : ℤ
  endYear : ℤ
  customDuration : Bool

/-- The full input snapshot of one engine invocation. -/
structure Config where
  initialCapital : ℝ
  durationYears : ℕ
  reinvestGains : Bool
  yieldPhases : List YieldPhase
  transactions : List Transaction

/-- One output row of `calculateData`. -/
structure YearResult where
  year : ℤ
  balance : ℤ
  rate : ℚ
  deposits : ℤ
  returns : ℤ
deriving DecidableEq

/-- Source line 586: `yieldPhases.filter(p => year >= p.startYear && year <= p.endYear)`. -/
def phaseMatches (year : ℤ) (p : YieldPhase) : Bool :=
  decide (p.startYear ≤ year ∧ year ≤ p.endYear)

def matchingPhases (ps : List YieldPhase) (year : ℤ) : List YieldPhase :=
  ps.filter (phaseMatches year)

/-- Source lines 587-588: the last matching phase wins, and a missing
match acts as the default object `{ rate: 0 }`. -/
def effRateQ (ps : List YieldPhase) (year : ℤ) : ℚ :=
  match (matchingPhases ps year).getLast? with
  | some p => p.rate
  | none => 0

/-- Source line 590: `Math.pow(1 + annualRate, 1/12) - 1` with
`annualRate = rate / 100`, idealised over the reals. -/
noncomputable def monthlyRate (pct : ℚ) : ℝ :=
  (1 + (pct : ℝ) / 100) ^ ((1 : ℝ) / 12) - 1

/-- Source line 597: effective end year of a transaction. -/
def effectiveEnd (D : ℕ) (t : Transaction) : ℤ :=
  if !t.customDuration && t.type == "monthly" then (D : ℤ) else t.endYear

/-- Source line 598: activity test for a transaction in a given year. -/
def isActive (D : ℕ) (t : Transaction) (year : ℤ) : Bool :=
  decide (t.startYear ≤ year) &&
    decide (year ≤ (if t.type == "monthly" then effectiveEnd D t else t.startYear))

/-- The mutable state of the simulation loop: `currentBalance`,
`totalGains` (whole-run), `yearDeposits` and `yearReturns` (per year). -/
@[ext]
structure SimState where
  balance : ℝ
  totalGains : ℝ
  yearDeposits : ℝ
  yearReturns : ℝ

/-- Source lines 596-603: the body of `transactions.forEach` for one
transaction in one month. -/
def applyTx (D : ℕ) (year : ℤ) (month : ℕ) (s : SimState) (t : Transaction) : SimState :=
  if isActive D t year then
    if t.type == "monthly" then
      { s with balance := s.balance + t.amount, yearDeposits := s.yearDeposits + t.amount }
    else if t.type == "once" && month == 1 then
      { s with balance := s.balance + t.amount, yearDeposits := s.yearDeposits + t.amount }
    else s
  else s

/-- Source lines 595-611: one month of the inner loop — apply every
transaction, compute the gain on the post-deposit balance, accumulate it,
and add it to the balance only when reinvesting. -/
def monthStep (cfg : Config) (year : ℤ) (mRate : ℝ) (month : ℕ) (s : SimState) : SimState :=
  let s1 := cfg.transactions.foldl (applyTx cfg.durationYears year month) s
  let gain := s1.balance * mRate
  { balance := if cfg.reinvestGains then s1.balance + gain else s1.balance
    totalGains := s1.totalGains + gain
    yearDeposits := s1.yearDeposits
    yearReturns := s1.yearReturns + gain }

/-- `for (let month = 1; month <= 12; month++)`, as a recursion on the
number of remaining months (first argument is the current month). -/
def runMonths (cfg : Config) (year : ℤ) (mRate : ℝ) : ℕ → ℕ → SimState → SimState
  | _, 0, s => s
  | month, c + 1, s => runMonths cfg year mRate (month + 1) c (monthStep cfg year mRate month s)

/-- The simulation state at the end of one year of the outer loop
(source lines 586-611), starting from balance `b` and accumulated gains
`tg`, with per-year accumulators reset to `0`. -/
noncomputable def yearState (cfg : Config) (year : ℤ) (b tg : ℝ) : SimState :=
  runMonths cfg year (monthlyRate (effRateQ cfg.yieldPhases year)) 1 12
    { balance := b, totalGains := tg, yearDeposits := 0, yearReturns := 0 }

/-- Source lines 612-618: the record pushed for one year. -/
noncomputable def yearRecord (cfg : Config) (year : ℤ) (b tg : ℝ) : YearResult :=
  let s := yearState cfg year b tg
  { year := year
    balance := jsRound (if cfg.reinvestGains then s.balance else s.balance + s.totalGains)
    rate := effRateQ cfg.yieldPhases year
    deposits := jsRound s.yearDeposits
    returns := jsRound s.yearReturns }

/-- The outer `for (let year = 1; year <= durationYears; year++)` loop,
as a recursion on the number of remaining years. -/
noncomputable def calcFrom (cfg : Config) : ℤ → ℕ → ℝ → ℝ → List YearResult
  | _, 0, _, _ => []
  | year, fuel + 1, b, tg =>
    yearRecord cfg year b tg ::
      calcFrom cfg (year + 1) fuel (yearState cfg year b tg).balance
        (yearState cfg year b tg).totalGains

/-- Source lines 580-621: `calculateData`. -/
noncomputable def calculateData (cfg : Config) : List YearResult :=
  calcFrom cfg 1 cfg.durationYears cfg.initialCapital 0

/-- Source lines 694-699: `totalInvested`. -/
noncomputable def totalInvested (cfg : Config) : ℝ :=
  cfg.initialCapital + cfg.transactions.foldl
    (fun acc t =>
      acc + t.amount *
        (if t.type == "monthly"
         then (((effectiveEnd cfg.durationYears t - t.startYear + 1) * 12 : ℤ) : ℝ)
         else 1))
    0

/-- The tax summary record (source lines 701-714). -/
structure TaxResult where
  gains : ℝ
  tax : ℤ
  afterTax : ℝ
  inTodaysMoney : ℤ
  effectiveRate : String

/-- Source lines 701-714: `taxInfo`, as a function of the final rounded
balance, the invested total and the duration it closes over. -/
noncomputable def taxInfo (finalBalance : ℤ) (invested : ℝ) (D : ℕ) : TaxResult :=
  let gains : ℝ := max 0 ((finalBalance : ℝ) - invested)
  let teilfreistellung : ℝ := 0.30
  let taxableGains := gains * (1 - teilfreistellung)
  let freibetrag : ℝ := 1000
  let taxableAfterFreibetrag := max 0 (taxableGains - freibetrag)
  let taxRate : ℝ := 0.26375
  let tax := jsRound (taxableAfterFreibetrag * taxRate)
  let afterTax := (finalBalance : ℝ) - (tax : ℝ)
  let inflationFactor := (1.02 : ℝ) ^ D
  { gains := gains
    tax := tax
    afterTax := afterTax
    inTodaysMoney := jsRound ((if 0 < tax then afterTax else (finalBalance : ℝ)) / inflationFactor)
    effectiveRate := if 0 < gains then toFixed1 ((tax : ℝ) / gains * 100) else "0.0" }

/-- One benchmark ETF of the static dataset (source lines 652-691):
name, ticker, ISIN, expense ratio, inception year, and the per-year
return table in percent (an association list keyed by calendar year). -/
structure EtfInfo where
  name : String
  ticker : String
  isin : String
  ter : ℚ
  inception : ℤ
  returns : List (ℤ × ℚ)
deriving DecidableEq

def iusaFund : EtfInfo :=
  { name := "iShares S&P 500", ticker := "IUSA", isin := "IE0031442068"
    ter := 7/100, inception := 2002
    returns := [(2003, 51/10), (2004, 36/10), (2005, 252/10), (2006, 33/10),
      (2007, -57/10), (2008, -384/10), (2009, 234/10), (2010, 223/10),
      (2011, 42/10), (2012, 143/10), (2013, 274/10), (2014, 287/10),
      (2015, 122/10), (2016, 144/10), (2017, 64/10), (2018, 0),
      (2019, 338/10), (2020, 85/10), (2021, 379/10), (2022, -133/10),
      (2023, 216/10), (2024, 326/10), (2025, 4)] }

def iqqwFund : EtfInfo :=
  { name := "iShares MSCI World", ticker := "IQQW", isin := "IE00B0M62Q58"
    ter := 50/100, inception := 2005
    returns := [(2006, 74/10), (2007, -17/10), (2008, -376/10), (2009, 26),
      (2010, 195/10), (2011, -24/10), (2012, 14), (2013, 212/10),
      (2014, 195/10), (2015, 104/10), (2016, 107/10), (2017, 75/10),
      (2018, -41/10), (2019, 30), (2020, 63/10), (2021, 311/10),
      (2022, -132/10), (2023, 192/10), (2024, 259/10), (2025, 68/10)] }

def spyiFund : EtfInfo :=
  { name := "SPDR MSCI ACWI IMI", ticker := "SPYI", isin := "IE00B3YLTY66"
    ter := 17/100, inception := 2011
    returns := [(2012, 141/10), (2013, 175/10), (2014, 186/10), (2015, 88/10),
      (2016, 114/10), (2017, 89/10), (2018, -49/10), (2019, 289/10),
      (2020, 67/10), (2021, 288/10), (2022, -124/10), (2023, 169/10),
      (2024, 235/10), (2025, 81/10)] }

/-- The static `etfData` array (source lines 652-691). -/
def etfData : List EtfInfo := [iusaFund, iqqwFund, spyiFund]

/-- One benchmark output row (source lines 728-739).  The source spreads
the static fields and formats `cagr` / `totalReturn` with `toFixed` for
display; we keep the numeric values the formatting is applied to. -/
structure BenchmarkResult where
  name : String
  cagr : Option ℝ
  totalReturn : ℝ
  yearsAvailable : ℕ
  yearsRequested : ℕ
  fromYear : Option ℤ
  toYear : Option ℤ

/-- Source lines 721-727: the ascending walk
`for (let y = startYear; y <= endYear; y++)` accumulating the years found
in the table and the cumulative growth factor.  The arguments are the
current year, the number of remaining years and the accumulator. -/
def benchLoop (rets : List (ℤ × ℚ)) : ℤ → ℕ → List ℤ × ℚ → List ℤ × ℚ
  | _, 0, acc => acc
  | y, c + 1, acc =>
    benchLoop rets (y + 1) c
      (match rets.lookup y with
       | some r => (acc.1 ++ [y], acc.2 * (1 + r / 100))
       | none => acc)

/-- Source lines 716-741: the per-ETF body of `etfBenchmarks`.  The
window is the `durationYears` calendar years ending at 2025. -/
noncomputable def etfBenchmark (D : ℕ) (etf : EtfInfo) : BenchmarkResult :=
  let endY : ℤ := 2025
  let startY : ℤ := endY - (D : ℤ) + 1
  let walk := benchLoop etf.returns startY D ([], 1)
  let years := walk.1
  let cumulative := walk.2
  let n := years.length
  { name := etf.name
    cagr := if 0 < n then some ((((cumulative : ℝ)) ^ ((1 : ℝ) / (n : ℝ)) - 1) * 100) else none
    totalReturn := ((cumulative : ℝ) - 1) * 100
    yearsAvailable := n
    yearsRequested := D
    fromYear := years.head?
    toYear := years.getLast? }

/-- Source line 718: the mapped benchmark list. -/
noncomputable def etfBenchmarks (D : ℕ) : List BenchmarkResult :=
  etfData.map (etfBenchmark D)

/- ### NaN-tracking model (for the safety claim)

JS `Math.pow(b, e)` returns NaN for `b < 0` and fractional `e`, and NaN is
absorbing for `+`, `*` and `Math.round`.  `none` plays NaN below; the
model is otherwise line-for-line the one above. -/

def nAdd (a b : Option ℝ) : Option ℝ := Option.map₂ (· + ·) a b

def nMul (a b : Option ℝ) : Option ℝ := Option.map₂ (· * ·) a b

noncomputable def jsRoundN (a : Option ℝ) : Option ℤ := a.map jsRound

/-- `Math.pow(1 + rate/100, 1/12) - 1` with JS NaN semantics: a base
below zero gives NaN because the exponent `1/12` is not an integer. -/
noncomputable def monthlyRateN (pct : ℚ) : Option ℝ :=
  if (1 : ℝ) + (pct : ℝ) / 100 < 0 then none
  else some ((1 + (pct : ℝ) / 100) ^ ((1 : ℝ) / 12) - 1)

@[ext]
structure SimStateN where
  balance : Option ℝ
  totalGains : Option ℝ
  yearDeposits : Option ℝ
  yearReturns : Option ℝ

def applyTxN (D : ℕ) (year : ℤ) (month : ℕ) (s : SimStateN) (t : Transaction) : SimStateN :=
  if isActive D t year then
    if t.type == "monthly" then
      { s with balance := nAdd s.balance (some t.amount)
               yearDeposits := nAdd s.yearDeposits (some t.amount) }
    else if t.type == "once" && month == 1 then
      { s with balance := nAdd s.balance (some t.amount)
               yearDeposits := nAdd s.yearDeposits (some t.amount) }
    else s
  else s

def monthStepN (cfg : Config) (year : ℤ) (mRate : Option ℝ) (month : ℕ) (s : SimStateN) :
    SimStateN :=
  let s1 := cfg.transactions.foldl (applyTxN cfg.durationYears year month) s
  let gain := nMul s1.balance mRate
  { balance := if cfg.reinvestGains then nAdd s1.balance gain else s1.balance
    totalGains := nAdd s1.totalGains gain
    yearDeposits := s1.yearDeposits
    yearReturns := nAdd s1.yearReturns gain }

def runMonthsN (cfg : Config) (year : ℤ) (mRate : Option ℝ) : ℕ → ℕ → SimStateN → SimStateN
  | _, 0, s => s
  | month, c + 1, s => runMonthsN cfg year mRate (month + 1) c (monthStepN cfg year mRate month s)

noncomputable def yearStateN (cfg : Config) (year : ℤ) (b tg : Option ℝ) : SimStateN :=
  runMonthsN cfg year (monthlyRateN (effRateQ cfg.yieldPhases year)) 1 12
    { balance := b, totalGains := tg, yearDeposits := some 0, yearReturns := some 0 }

structure YearResultN where
  year : ℤ
  balance : Option ℤ
  rate : ℚ
  deposits : Option ℤ
  returns : Option ℤ

noncomputable def yearRecordN (cfg : Config) (year : ℤ) (b tg : Option ℝ) : YearResultN :=
  let s := yearStateN cfg year b tg
  { year := year
    balance := jsRoundN (if cfg.reinvestGains then s.balance else nAdd s.balance s.totalGains)
    rate := effRateQ cfg.yieldPhases year
    deposits := jsRoundN s.yearDeposits
    returns := jsRoundN s.yearReturns }

noncomputable def calcFromN (cfg : Config) : ℤ → ℕ → Option ℝ → Option ℝ → List YearResultN
  | _, 0, _, _ => []
  | year, fuel + 1, b, tg =>
    yearRecordN cfg year b tg ::
      calcFromN cfg (year + 1) fuel (yearStateN cfg year b tg).balance
        (yearStateN cfg year b tg).totalGains

/-- `calculateData` with NaN tracked explicitly. -/
noncomputable def calculateDataN (cfg : Config) : List YearResultN :=
  calcFromN cfg 1 cfg.durationYears (some cfg.initialCapital) (some 0)

/- ### Spec-side definitions

These follow the wording of the specification and are compared with the
source-derived definitions above. -/

/-- Modelled from the spec (section 4.1): the rate of the LAST phase in
collection order whose window covers the year, and `0` when no phase
covers it — stated by searching the reversed collection. -/
def lastCoveringRate (ps : List YieldPhase) (year : ℤ) : ℚ :=
  match ps.reverse.find? (phaseMatches year) with
  | some p => p.rate
  | none => 0

/-- Spec section 4.1: what one transaction contributes in one month — its
amount when it is an active monthly transaction, its amount when it is an
active once transaction and the month is the first, otherwise nothing. -/
def txContrib (D : ℕ) (year : ℤ) (month : ℕ) (t : Transaction) : ℝ :=
  if t.type = "monthly" ∧ isActive D t year = true then t.amount
  else if t.type = "once" ∧ isActive D t year = true ∧ month = 1 then t.amount
  else 0

/-- The net deposit applied in one month across all transactions. -/
def monthDeposit (cfg : Config) (year : ℤ) (month : ℕ) : ℝ :=
  (cfg.transactions.map (txContrib cfg.durationYears year month)).sum

/-- Spec section 4.1: what one transaction contributes to a whole year of
deposits — 12 applications for an active monthly transaction, one for an
active once transaction. -/
def yearContrib (D : ℕ) (year : ℤ) (t : Transaction) : ℝ :=
  if t.type = "monthly" ∧ isActive D t year = true then 12 * t.amount
  else if t.type = "once" ∧ isActive D t year = true then t.amount
  else 0

/-- Spec section 4.2, `reinvestGains = false`: the principal is moved
only by transactions, and each month a gain on the post-deposit principal
is accrued separately.  The pair carries (principal, accumulated gains). -/
noncomputable def specMonthsFalse (cfg : Config) (year : ℤ) (r : ℝ) : ℕ → ℕ → ℝ × ℝ → ℝ × ℝ
  | _, 0, pg => pg
  | month, c + 1, pg =>
    specMonthsFalse cfg year r (month + 1) c
      (pg.1 + monthDeposit cfg year month,
       pg.2 + (pg.1 + monthDeposit cfg year month) * r)

/-- Spec section 4.2, `reinvestGains = true`: deposits are applied, then
the monthly gain is added to the balance immediately, so it compounds in
the following months. -/
noncomputable def specMonthsTrue (cfg : Config) (year : ℤ) (r : ℝ) : ℕ → ℕ → ℝ → ℝ
  | _, 0, b => b
  | month, c + 1, b =>
    specMonthsTrue cfg year r (month + 1) c
      ((b + monthDeposit cfg year month) + (b + monthDeposit cfg year month) * r)

/-- Year-by-year trajectory of the spec model without reinvestment. -/
noncomputable def specFalseYears (cfg : Config) : ℕ → ℝ × ℝ
  | 0 => (cfg.initialCapital, 0)
  | n + 1 =>
    specMonthsFalse cfg ((n : ℤ) + 1) (monthlyRate (effRateQ cfg.yieldPhases ((n : ℤ) + 1)))
      1 12 (specFalseYears cfg n)

/-- Year-by-year trajectory of the spec model with reinvestment. -/
noncomputable def specTrueYears (cfg : Config) : ℕ → ℝ
  | 0 => cfg.initialCapital
  | n + 1 =>
    specMonthsTrue cfg ((n : ℤ) + 1) (monthlyRate (effRateQ cfg.yieldPhases ((n : ℤ) + 1)))
      1 12 (specTrueYears cfg n)

/-- The (balance, totalGains) pair of the source loop after `n` years. -/
noncomputable def stateAfter (cfg : Config) : ℕ → ℝ × ℝ
  | 0 => (cfg.initialCapital, 0)
  | n + 1 =>
    ((yearState cfg ((n : ℤ) + 1) (stateAfter cfg n).1 (stateAfter cfg n).2).balance,
     (yearState cfg ((n : ℤ) + 1) (stateAfter cfg n).1 (stateAfter cfg n).2).totalGains)

/-- Spec section 4.3: the calendar years of the requested benchmark
window, in ascending order. -/
def windowYears (startY : ℤ) : ℕ → List ℤ
  | 0 => []
  | c + 1 => startY :: windowYears (startY + 1) c

/-- Spec section 4.3: the years of the window present in the return
table (missing years are skipped, not treated as zero). -/
def presentYears (rets : List (ℤ × ℚ)) (startY : ℤ) (c : ℕ) : List ℤ :=
  (windowYears startY c).filter (fun y => (rets.lookup y).isSome)

/-- Spec section 4.3: cumulative growth factor over a list of years. -/
def cumulProd (rets : List (ℤ × ℚ)) (ys : List ℤ) : ℚ :=
  (ys.map (fun y => 1 + ((rets.lookup y).getD 0) / 100)).prod

/- ### Concrete scenario inputs used by individual claims. -/

/-- The scenario of the compounding test: 30000 initial, 6% for years
1-15, a 500 monthly savings plan, reinvesting, 15 years. -/
def cfgC1 : Config :=
  { initialCapital := 30000, durationYears := 15, reinvestGains := true
    yieldPhases := [⟨1, 15, 6, false⟩]
    transactions := [⟨500, "monthly", 1, 15, false⟩] }

/-- The monthly growth factor `1.06 ^ (1/12)` of that scenario. -/
noncomputable def q6 : ℝ := (1.06 : ℝ) ^ ((1 : ℝ) / 12)

/-- Monthly iteration as the source implements it: the deposit is added
first, then the gain of the month is applied to the post-deposit balance. -/
noncomputable def codeIterC1 (n : ℕ) : ℝ := (fun b => (b + 500) * q6)^[n] 30000

/-- Monthly iteration as the claim words it: the gain of the month is
applied first and the deposit is added afterwards. -/
noncomputable def claimIterC1 (n : ℕ) : ℝ := (fun b => b * q6 + 500)^[n] 30000

/-- A failing input for the NaN claim: one phase with rate −200%. -/
def cfgNaN : Config :=
  { initialCapital := 0, durationYears := 1, reinvestGains := true
    yieldPhases := [⟨1, 1, -200, true⟩], transactions := [] }

/-- A transaction with an unknown type string. -/
def txWeekly : Transaction := ⟨500, "weekly", 1, 1, false⟩

def cfgWeekly : Config := ⟨1000, 1, true, [], [txWeekly]⟩

def cfgNoTx : Config := ⟨1000, 1, true, [], []⟩

/-- A custom monthly transaction whose end year is exactly one less than
its start year: it fires in no year and its occurrence count is zero. -/
def txGap : Transaction := ⟨500, "monthly", 5, 4, true⟩

def cfgGap : Config := ⟨1000, 10, true, [], [txGap]⟩

def cfgGapBase : Config := ⟨1000, 10, true, [], []⟩

/-- A custom monthly transaction with endYear two less than its start
year: its occurrence count is strictly negative. -/
def txGone : Transaction := ⟨500, "monthly", 5, 3, true⟩

def cfgGone : Config := ⟨1000, 10, true, [], [txGone]⟩

/-- All four accumulators of the NaN-tracking state are finite. -/
def allSomeN (s : SimStateN) : Prop :=
  s.balance.isSome ∧ s.totalGains.isSome ∧ s.yearDeposits.isSome ∧ s.yearReturns.isSome

/-- The per-transaction term of the `totalInvested` fold (source lines
696-698): amount times the occurrence count. -/
noncomputable def investTerm (D : ℕ) (t : Transaction) : ℝ :=
  t.amount * (if t.type == "monthly"
    then (((effectiveEnd D t - t.startYear + 1) * 12 : ℤ) : ℝ) else 1)

/- ### Helper lemmas on the simulator -/

theorem applyTx_eq (D : ℕ) (year : ℤ) (month : ℕ) (s : SimState) (t : Transaction) :
    applyTx D year month s t =
      { s with balance := s.balance + txContrib D year month t
               yearDeposits := s.yearDeposits + txContrib D year month t } := by
  unfold applyTx txContrib
  by_cases hA : isActive D t year
  · by_cases hm : t.type = "monthly"
    · simp [hA, hm]
    · by_cases ho : t.type = "once"
      · by_cases h1 : month = 1
        · simp [hA, hm, ho, h1]
        · simp [hA, hm, ho, h1]
      · simp [hA, hm, ho]
  · simp [hA]

theorem foldl_applyTx (D : ℕ) (year : ℤ) (month : ℕ) :
    ∀ (ts : List Transaction) (s : SimState),
      ts.foldl (applyTx D year month) s =
        { s with balance := s.balance + (ts.map (txContrib D year month)).sum
                 yearDeposits := s.yearDeposits + (ts.map (txContrib D year month)).sum }
  | [], s => by simp
  | t :: ts, s => by
    rw [List.foldl_cons, foldl_applyTx D year month ts, applyTx_eq]
    simp only [List.map_cons, List.sum_cons]
    ext <;> simp <;> ring

theorem monthStep_eq (cfg : Config) (year : ℤ) (r : ℝ) (month : ℕ) (s : SimState) :
    monthStep cfg year r month s =
      { balance :=
          if cfg.reinvestGains
          then (s.balance + monthDeposit cfg year month) +
            (s.balance + monthDeposit cfg year month) * r
          else s.balance + monthDeposit cfg year month
        totalGains := s.totalGains + (s.balance + monthDeposit cfg year month) * r
        yearDeposits := s.yearDeposits + monthDeposit cfg year month
        yearReturns := s.yearReturns + (s.balance + monthDeposit cfg year month) * r } := by
  unfold monthStep monthDeposit
  rw [foldl_applyTx]

theorem runMonths_false (cfg : Config) (year : ℤ) (r : ℝ) (h : cfg.reinvestGains = false) :
    ∀ (c month : ℕ) (s : SimState),
      ((runMonths cfg year r month c s).balance, (runMonths cfg year r month c s).totalGains)
        = specMonthsFalse cfg year r month c (s.balance, s.totalGains)
  | 0, month, s => rfl
  | c + 1, month, s => by
    have ih := runMonths_false cfg year r h c (month + 1) (monthStep cfg year r month s)
    simp only [runMonths, specMonthsFalse]
    rw [ih, monthStep_eq]
    simp [h]

theorem runMonths_true (cfg : Config) (year : ℤ) (r : ℝ) (h : cfg.reinvestGains = true) :
    ∀ (c month : ℕ) (s : SimState),
      (runMonths cfg year r month c s).balance
        = specMonthsTrue cfg year r month c s.balance
  | 0, month, s => rfl
  | c + 1, month, s => by
    have ih := runMonths_true cfg year r h c (month + 1) (monthStep cfg year r month s)
    simp only [runMonths, specMonthsTrue]
    rw [ih, monthStep_eq]
    simp [h]

theorem runMonths_deposits (cfg : Config) (year : ℤ) (r : ℝ) :
    ∀ (c month : ℕ) (s : SimState),
      (runMonths cfg year r month c s).yearDeposits
        = s.yearDeposits + ((List.range c).map (fun k => monthDeposit cfg year (month + k))).sum
  | 0, month, s => by simp [runMonths]
  | c + 1, month, s => by
    have ih := runMonths_deposits cfg year r c (month + 1) (monthStep cfg year r month s)
    have hsh : ∀ k : ℕ, month + 1 + k = month + (k + 1) := by omega
    simp only [runMonths]
    rw [ih, monthStep_eq]
    simp only [List.range_succ_eq_map, List.map_cons, List.sum_cons, List.map_map,
      Function.comp_def, Nat.succ_eq_add_one, hsh, Nat.add_zero]
    rw [add_assoc]

theorem calcFrom_map (cfg : Config) :
    ∀ (fuel k : ℕ),
      calcFrom cfg ((k : ℤ) + 1) fuel (stateAfter cfg k).1 (stateAfter cfg k).2 =
        (List.range fuel).map (fun i =>
          yearRecord cfg (((k + i : ℕ) : ℤ) + 1)
            (stateAfter cfg (k + i)).1 (stateAfter cfg (k + i)).2)
  | 0, k => by simp [calcFrom]
  | fuel + 1, k => by
    have ih := calcFrom_map cfg fuel (k + 1)
    have hb : (yearState cfg ((k : ℤ) + 1) (stateAfter cfg k).1 (stateAfter cfg k).2).balance
        = (stateAfter cfg (k + 1)).1 := rfl
    have hg : (yearState cfg ((k : ℤ) + 1) (stateAfter cfg k).1 (stateAfter cfg k).2).totalGains
        = (stateAfter cfg (k + 1)).2 := rfl
    have hyear : ((k : ℤ) + 1) + 1 = (((k + 1 : ℕ)) : ℤ) + 1 := by push_cast; ring
    have hsh : ∀ i : ℕ, k + 1 + i = k + (i + 1) := by omega
    simp only [calcFrom, hb, hg, hyear, ih]
    rw [List.range_succ_eq_map, List.map_cons, List.map_map]
    simp [hsh, Function.comp]

theorem calculateData_map (cfg : Config) :
    calculateData cfg = (List.range cfg.durationYears).map (fun i : ℕ =>
      yearRecord cfg ((i : ℤ) + 1) (stateAfter cfg i).1 (stateAfter cfg i).2) := by
  have h := calcFrom_map cfg cfg.durationYears 0
  simpa using h

theorem stateAfter_false (cfg : Config) (h : cfg.reinvestGains = false) :
    ∀ n : ℕ, stateAfter cfg n = specFalseYears cfg n
  | 0 => rfl
  | n + 1 => by
    have ih := stateAfter_false cfg h n
    show ((yearState cfg ((n : ℤ) + 1) (stateAfter cfg n).1 (stateAfter cfg n).2).balance,
          (yearState cfg ((n : ℤ) + 1) (stateAfter cfg n).1 (stateAfter cfg n).2).totalGains)
        = specFalseYears cfg (n + 1)
    rw [yearState, runMonths_false cfg _ _ h 12 1 _]
    rw [show ((stateAfter cfg n).1, (stateAfter cfg n).2) = stateAfter cfg n from rfl, ih]
    rfl

theorem stateAfter_true (cfg : Config) (h : cfg.reinvestGains = true) :
    ∀ n : ℕ, (stateAfter cfg n).1 = specTrueYears cfg n
  | 0 => rfl
  | n + 1 => by
    have ih := stateAfter_true cfg h n
    show (yearState cfg ((n : ℤ) + 1) (stateAfter cfg n).1 (stateAfter cfg n).2).balance
        = specTrueYears cfg (n + 1)
    rw [yearState, runMonths_true cfg _ _ h 12 1 _]
    rw [show SimState.balance ⟨(stateAfter cfg n).1, (stateAfter cfg n).2, 0, 0⟩
          = (stateAfter cfg n).1 from rfl, ih]
    rfl

theorem getLast?_filter_eq_find?_reverse {α : Type} (p : α → Bool) (l : List α) :
    (l.filter p).getLast? = l.reverse.find? p := by
  induction l using List.reverseRecOn with
  | nil => rfl
  | append_singleton l a ih =>
    rw [List.filter_append, List.reverse_append]
    by_cases hp : p a
    · simp [hp, List.getLast?_concat]
    · simp [hp, ih]

theorem effRateQ_eq_last (ps : List YieldPhase) (year : ℤ) :
    effRateQ ps year = lastCoveringRate ps year := by
  unfold effRateQ lastCoveringRate matchingPhases
  rw [getLast?_filter_eq_find?_reverse]

theorem list_sum_map_add {α : Type} (f g : α → ℝ) :
    ∀ l : List α, (l.map (fun x => f x + g x)).sum = (l.map f).sum + (l.map g).sum
  | [] => by simp
  | x :: l => by
    simp only [List.map_cons, List.sum_cons, list_sum_map_add f g l]
    ring

theorem sum_txContrib_single (D : ℕ) (year : ℤ) (t : Transaction) :
    ((List.range 12).map (fun k => txContrib D year (1 + k) t)).sum
      = yearContrib D year t := by
  unfold txContrib yearContrib
  by_cases hm : t.type = "monthly" ∧ isActive D t year = true
  · simp [hm]
    ring
  · by_cases ho : t.type = "once" ∧ isActive D t year = true
    · rw [show List.range 12 = [0, 1, 2, 3, 4, 5, 6, 7, 8, 9, 10, 11] from rfl]
      simp [hm, ho]
    · have ho2 : ∀ k : ℕ, ¬(t.type = "once" ∧ isActive D t year = true ∧ k = 0) :=
        fun k h => ho ⟨h.1, h.2.1⟩
      simp [hm, ho, ho2]

theorem sum_txContrib (D : ℕ) (year : ℤ) :
    ∀ ts : List Transaction,
      ((List.range 12).map (fun k => (ts.map (txContrib D year (1 + k))).sum)).sum
        = (ts.map (yearContrib D year)).sum
  | [] => by simp
  | t :: ts => by
    have ih := sum_txContrib D year ts
    simp only [List.map_cons, List.sum_cons]
    rw [list_sum_map_add (fun k => txContrib D year (1 + k) t)
        (fun k => (ts.map (txContrib D year (1 + k))).sum) (List.range 12)]
    rw [ih, sum_txContrib_single]

/- ### Claim theorems -/

/-- C7: for a valid config (durationYears ≥ 1) the output has exactly
`durationYears` rows and the year fields are `1..durationYears`,
contiguous and ascending. -/
theorem resultYears_complete (cfg : Config) (h : 1 ≤ cfg.durationYears) :
    (calculateData cfg).length = cfg.durationYears ∧
    (calculateData cfg).map (fun r => r.year)
      = (List.range cfg.durationYears).map (fun i : ℕ => (i : ℤ) + 1) := by
  rw [calculateData_map]
  constructor
  · simp
  · rw [List.map_map]
    rfl

theorem resultYears_complete_witness :
    1 ≤ cfgNoTx.durationYears ∧
    ((calculateData cfgNoTx).length = cfgNoTx.durationYears ∧
     (calculateData cfgNoTx).map (fun r => r.year)
       = (List.range cfgNoTx.durationYears).map (fun i : ℕ => (i : ℤ) + 1)) :=
  ⟨by decide, resultYears_complete cfgNoTx (by decide)⟩

/-- C3: every year's reported rate field is the rate of the LAST phase in
collection order whose window covers the year; with two phases covering
the same year the later one decides; with none the rate is 0. -/
theorem rate_resolution :
    (∀ cfg : Config, (calculateData cfg).map (fun r => r.rate)
        = (List.range cfg.durationYears).map
            (fun i : ℕ => lastCoveringRate cfg.yieldPhases ((i : ℤ) + 1))) ∧
    (∀ (p q : YieldPhase) (year : ℤ), p.startYear ≤ year → year ≤ p.endYear →
        q.startYear ≤ year → year ≤ q.endYear →
        lastCoveringRate [p, q] year = q.rate) ∧
    (∀ (ps : List YieldPhase) (year : ℤ),
        (∀ p ∈ ps, ¬ (p.startYear ≤ year ∧ year ≤ p.endYear)) →
        lastCoveringRate ps year = 0) := by
  refine ⟨fun cfg => ?_, fun p q year h1 h2 h3 h4 => ?_, fun ps year hnone => ?_⟩
  · rw [calculateData_map, List.map_map]
    refine List.map_congr_left fun i _ => ?_
    show effRateQ cfg.yieldPhases ((i : ℤ) + 1) = lastCoveringRate cfg.yieldPhases ((i : ℤ) + 1)
    exact effRateQ_eq_last _ _
  · simp [lastCoveringRate, phaseMatches, h3, h4]
  · unfold lastCoveringRate
    have : ps.reverse.find? (phaseMatches year) = none := by
      rw [List.find?_eq_none]
      intro x hx
      simp only [phaseMatches, decide_eq_true_eq]
      exact hnone x (List.mem_reverse.mp hx)
    rw [this]

theorem rate_resolution_witness :
    ((1 : ℤ) ≤ 5 ∧ (5 : ℤ) ≤ 9 ∧ (2 : ℤ) ≤ 5 ∧ (5 : ℤ) ≤ 8 ∧
      lastCoveringRate [⟨1, 9, 3, false⟩, ⟨2, 8, 7, true⟩] 5 = 7) ∧
    lastCoveringRate [⟨4, 6, 5, true⟩] 9 = 0 :=
  ⟨⟨by decide, by decide, by decide, by decide,
    rate_resolution.2.1 ⟨1, 9, 3, false⟩ ⟨2, 8, 7, true⟩ 5
      (by decide) (by decide) (by decide) (by decide)⟩,
   rate_resolution.2.2 [⟨4, 6, 5, true⟩] 9 (by decide)⟩

/-- C4: effective end year, the activity window of monthly and once
transactions, the per-application effect on balance and deposit
accumulators, and the resulting reported deposits of each year. -/
theorem transaction_activity :
    (∀ (D : ℕ) (t : Transaction),
        effectiveEnd D t
          = if t.type = "monthly" ∧ t.customDuration = false then (D : ℤ) else t.endYear) ∧
    (∀ (D : ℕ) (t : Transaction) (year : ℤ),
        isActive D t year
          = if t.type = "monthly" then decide (t.startYear ≤ year ∧ year ≤ effectiveEnd D t)
            else decide (year = t.startYear)) ∧
    (∀ (D : ℕ) (year : ℤ) (month : ℕ) (s : SimState) (t : Transaction),
        applyTx D year month s t
          = { s with balance := s.balance + txContrib D year month t
                     yearDeposits := s.yearDeposits + txContrib D year month t }) ∧
    (∀ cfg : Config, (calculateData cfg).map (fun r => r.deposits)
        = (List.range cfg.durationYears).map
            (fun i : ℕ => jsRound ((cfg.transactions.map
              (yearContrib cfg.durationYears ((i : ℤ) + 1))).sum))) := by
  refine ⟨fun D t => ?_, fun D t year => ?_, applyTx_eq, fun cfg => ?_⟩
  · unfold effectiveEnd
    by_cases hm : t.type = "monthly" <;> by_cases hc : t.customDuration <;> simp [hm, hc]
  · unfold isActive
    by_cases hm : t.type = "monthly"
    · simp [hm, Bool.decide_and]
    · simp only [hm, if_false, beq_iff_eq, hm]
      rw [← Bool.decide_and, decide_eq_decide]
      omega
  · rw [calculateData_map, List.map_map]
    refine List.map_congr_left fun i _ => ?_
    show jsRound ((yearState cfg ((i : ℤ) + 1) (stateAfter cfg i).1 (stateAfter cfg i).2).yearDeposits)
        = jsRound ((cfg.transactions.map (yearContrib cfg.durationYears ((i : ℤ) + 1))).sum)
    rw [yearState, runMonths_deposits]
    show jsRound ((0 : ℝ) + _) = _
    rw [zero_add]
    rw [show (fun k => monthDeposit cfg ((i : ℤ) + 1) (1 + k))
          = (fun k => ((cfg.transactions.map (txContrib cfg.durationYears ((i : ℤ) + 1) (1 + k))).sum)) from rfl]
    rw [sum_txContrib]

theorem balance_columns (cfg : Config) :
    (calculateData cfg).map (fun r => r.balance)
      = (List.range cfg.durationYears).map (fun i : ℕ =>
          if cfg.reinvestGains then jsRound (specTrueYears cfg (i + 1))
          else jsRound ((specFalseYears cfg (i + 1)).1 + (specFalseYears cfg (i + 1)).2)) := by
  rw [calculateData_map, List.map_map]
  refine List.map_congr_left fun i _ => ?_
  show jsRound (if cfg.reinvestGains
        then (yearState cfg ((i : ℤ) + 1) (stateAfter cfg i).1 (stateAfter cfg i).2).balance
        else (yearState cfg ((i : ℤ) + 1) (stateAfter cfg i).1 (stateAfter cfg i).2).balance
          + (yearState cfg ((i : ℤ) + 1) (stateAfter cfg i).1 (stateAfter cfg i).2).totalGains) = _
  rcases h : cfg.reinvestGains
  · have hf := stateAfter_false cfg h (i + 1)
    rw [show (yearState cfg ((i : ℤ) + 1) (stateAfter cfg i).1 (stateAfter cfg i).2).balance
          = (stateAfter cfg (i + 1)).1 from rfl,
        show (yearState cfg ((i : ℤ) + 1) (stateAfter cfg i).1 (stateAfter cfg i).2).totalGains
          = (stateAfter cfg (i + 1)).2 from rfl]
    simp [h, hf]
  · have ht := stateAfter_true cfg h (i + 1)
    rw [show (yearState cfg ((i : ℤ) + 1) (stateAfter cfg i).1 (stateAfter cfg i).2).balance
          = (stateAfter cfg (i + 1)).1 from rfl]
    simp [h, ht]

/-- C2: when not reinvesting, every recorded balance is
round(principal-only balance + gains accumulated since year 1), the
principal being moved only by transactions; when reinvesting, every
recorded balance is the compounding trajectory in which each monthly gain
is added to the balance immediately and so compounds in later months. -/
theorem reinvest_semantics (cfg : Config) :
    (calculateData cfg).map (fun r => r.balance)
      = (List.range cfg.durationYears).map (fun i : ℕ =>
          if cfg.reinvestGains then jsRound (specTrueYears cfg (i + 1))
          else jsRound ((specFalseYears cfg (i + 1)).1 + (specFalseYears cfg (i + 1)).2)) :=
  balance_columns cfg

/-- C5: the tax pipeline — gains floored at 0, 70% taxable, allowance
1000 floored at 0, flat rate 26.375% rounded, after-tax balance, and the
effective-rate report (the string rendering of tax/gains×100 to one
decimal, or the literal string when gains are zero); concretely gains
5000 give tax 659 and gains 0 give tax 0. -/
theorem tax_semantics (fb : ℤ) (inv : ℝ) (D : ℕ) :
    (taxInfo fb inv D).gains = max 0 ((fb : ℝ) - inv) ∧
    (taxInfo fb inv D).tax
      = jsRound (max 0 ((taxInfo fb inv D).gains * 0.7 - 1000) * 0.26375) ∧
    (taxInfo fb inv D).afterTax = (fb : ℝ) - ((taxInfo fb inv D).tax : ℝ) ∧
    (taxInfo fb inv D).effectiveRate
      = (if 0 < (taxInfo fb inv D).gains
         then toFixed1 (((taxInfo fb inv D).tax : ℝ) / (taxInfo fb inv D).gains * 100)
         else "0.0") ∧
    (taxInfo 5000 0 15).tax = 659 ∧
    (taxInfo 0 0 15).tax = 0 := by
  refine ⟨rfl, ?_, rfl, rfl, ?_, ?_⟩
  · show jsRound (max 0 (max 0 ((fb : ℝ) - inv) * (1 - 0.30) - 1000) * 0.26375)
        = jsRound (max 0 (max 0 ((fb : ℝ) - inv) * 0.7 - 1000) * 0.26375)
    norm_num
  · show jsRound (max 0 (max 0 (((5000 : ℤ) : ℝ) - 0) * (1 - 0.30) - 1000) * 0.26375) = 659
    rw [show (((5000 : ℤ) : ℝ) - 0) = 5000 by norm_num,
        max_eq_right (by norm_num : (0 : ℝ) ≤ 5000),
        show (5000 : ℝ) * (1 - 0.30) - 1000 = 2500 by norm_num,
        max_eq_right (by norm_num : (0 : ℝ) ≤ 2500),
        show (2500 : ℝ) * 0.26375 = 659.375 by norm_num]
    show ⌊(659.375 : ℝ) + 1 / 2⌋ = 659
    rw [Int.floor_eq_iff]
    constructor <;> norm_num
  · show jsRound (max 0 (max 0 (((0 : ℤ) : ℝ) - 0) * (1 - 0.30) - 1000) * 0.26375) = 0
    rw [show (((0 : ℤ) : ℝ) - 0) = 0 by norm_num, max_self,
        max_eq_left (by norm_num : (0 : ℝ) * (1 - 0.30) - 1000 ≤ 0)]
    show ⌊(0 : ℝ) * 0.26375 + 1 / 2⌋ = 0
    rw [Int.floor_eq_iff]
    constructor <;> norm_num

theorem windowYears_succ (y : ℤ) (c : ℕ) :
    windowYears y (c + 1) = y :: windowYears (y + 1) c := rfl

theorem benchLoop_spec (rets : List (ℤ × ℚ)) :
    ∀ (c : ℕ) (y : ℤ) (ys : List ℤ) (q : ℚ),
      benchLoop rets y c (ys, q)
        = (ys ++ presentYears rets y c, q * cumulProd rets (presentYears rets y c))
  | 0, y, ys, q => by simp [benchLoop, presentYears, windowYears, cumulProd]
  | c + 1, y, ys, q => by
    have hw := windowYears_succ y c
    cases hl : rets.lookup y with
    | some r =>
      have ih := benchLoop_spec rets c (y + 1) (ys ++ [y]) (q * (1 + r / 100))
      simp only [benchLoop, hl]
      rw [ih]
      have hp : presentYears rets y (c + 1) = y :: presentYears rets (y + 1) c := by
        unfold presentYears
        rw [hw, List.filter_cons]
        simp [hl]
      rw [hp]
      rw [Prod.mk.injEq]
      constructor
      · simp
      · unfold cumulProd
        rw [List.map_cons, List.prod_cons, hl]
        show q * (1 + r / 100) * _ = q * ((1 + r / 100) * _)
        ring
    | none =>
      have ih := benchLoop_spec rets c (y + 1) ys q
      simp only [benchLoop, hl]
      rw [ih]
      have hp : presentYears rets y (c + 1) = presentYears rets (y + 1) c := by
        unfold presentYears
        rw [hw, List.filter_cons]
        simp [hl]
      rw [hp]

/-- C6: the benchmark walk is over the window ending at 2025, ascending,
compounding only over the years present in the table; `yearsAvailable` is
the number of years actually used (missing years are skipped, not
zeroes), and `cagr` is the n-th-root formula when n > 0 and null when
n = 0. -/
theorem benchmark_semantics (etf : EtfInfo) (hetf : etf ∈ etfData) (D : ℕ) (hD : 1 ≤ D) :
    (etfBenchmark D etf).yearsAvailable
        = (presentYears etf.returns (2025 - (D : ℤ) + 1) D).length ∧
    (etfBenchmark D etf).cagr
        = (if 0 < (presentYears etf.returns (2025 - (D : ℤ) + 1) D).length
           then some
             ((((cumulProd etf.returns (presentYears etf.returns (2025 - (D : ℤ) + 1) D) : ℚ) : ℝ)
                 ^ ((1 : ℝ) / ((presentYears etf.returns (2025 - (D : ℤ) + 1) D).length : ℝ)) - 1)
               * 100)
           else none) ∧
    (etfBenchmark D etf).totalReturn
        = ((cumulProd etf.returns (presentYears etf.returns (2025 - (D : ℤ) + 1) D) : ℝ) - 1) * 100 ∧
    (etfBenchmark D etf).yearsRequested = D := by
  have hb := benchLoop_spec etf.returns D (2025 - (D : ℤ) + 1) [] 1
  simp only [etfBenchmark]
  rw [hb]
  simp

theorem benchmark_semantics_witness :
    iusaFund ∈ etfData ∧ 1 ≤ 15 ∧
    ((etfBenchmark 15 iusaFund).yearsAvailable
        = (presentYears iusaFund.returns (2025 - (15 : ℤ) + 1) 15).length ∧
     (etfBenchmark 15 iusaFund).cagr
        = (if 0 < (presentYears iusaFund.returns (2025 - (15 : ℤ) + 1) 15).length
           then some
             ((((cumulProd iusaFund.returns (presentYears iusaFund.returns (2025 - (15 : ℤ) + 1) 15) : ℚ) : ℝ)
                 ^ ((1 : ℝ) / ((presentYears iusaFund.returns (2025 - (15 : ℤ) + 1) 15).length : ℝ)) - 1)
               * 100)
           else none) ∧
     (etfBenchmark 15 iusaFund).totalReturn
        = ((cumulProd iusaFund.returns (presentYears iusaFund.returns (2025 - (15 : ℤ) + 1) 15) : ℝ) - 1) * 100 ∧
     (etfBenchmark 15 iusaFund).yearsRequested = 15) :=
  ⟨List.Mem.head _, by decide, benchmark_semantics iusaFund (List.Mem.head _) 15 (by decide)⟩

theorem monthlyRate6 : monthlyRate 6 = q6 - 1 := by
  unfold monthlyRate q6
  norm_num

theorem cfgC1_monthDeposit (year : ℤ) (h1 : 1 ≤ year) (h2 : year ≤ 15) (m : ℕ) :
    monthDeposit cfgC1 year m = 500 := by
  show txContrib cfgC1.durationYears year m ⟨500, "monthly", 1, 15, false⟩ + 0 = 500
  rw [add_zero]
  unfold txContrib
  rw [if_pos]
  refine ⟨rfl, ?_⟩
  unfold isActive effectiveEnd
  simp [h1, h2]
  exact_mod_cast h2

theorem cfgC1_rate (year : ℤ) (h1 : 1 ≤ year) (h2 : year ≤ 15) :
    effRateQ cfgC1.yieldPhases year = 6 := by
  have hd : phaseMatches year ⟨1, 15, 6, false⟩ = true := by
    unfold phaseMatches
    simp [h1, h2]
  unfold effRateQ matchingPhases
  rw [show cfgC1.yieldPhases = [⟨1, 15, 6, false⟩] from rfl, List.filter_cons, hd]
  rfl

theorem cfgC1_months (year : ℤ) (h1 : 1 ≤ year) (h2 : year ≤ 15) (r : ℝ) :
    ∀ (c m : ℕ) (b : ℝ),
      specMonthsTrue cfgC1 year r m c b = (fun x => (x + 500) + (x + 500) * r)^[c] b
  | 0, m, b => rfl
  | c + 1, m, b => by
    have ih := cfgC1_months year h1 h2 r c (m + 1)
      ((b + monthDeposit cfgC1 year m) + (b + monthDeposit cfgC1 year m) * r)
    simp only [specMonthsTrue]
    rw [ih, cfgC1_monthDeposit year h1 h2 m, Function.iterate_succ_apply]

theorem cfgC1_years :
    ∀ n : ℕ, n ≤ 15 →
      specTrueYears cfgC1 n
        = (fun x => (x + 500) + (x + 500) * monthlyRate 6)^[12 * n] 30000
  | 0, _ => rfl
  | n + 1, h => by
    have ih := cfgC1_years n (by omega)
    have h1 : (1 : ℤ) ≤ (n : ℤ) + 1 := by omega
    have h2 : ((n : ℤ) + 1) ≤ 15 := by
      have : (n : ℤ) ≤ 14 := by exact_mod_cast Nat.le_of_lt_succ (by omega)
      omega
    simp only [specTrueYears]
    rw [cfgC1_rate _ h1 h2, cfgC1_months _ h1 h2 _ 12 1, ih,
      ← Function.iterate_add_apply]
    congr 1
    omega

theorem cfgC1_final : specTrueYears cfgC1 15 = codeIterC1 180 := by
  rw [cfgC1_years 15 le_rfl]
  unfold codeIterC1
  have hfg : (fun x : ℝ => (x + 500) + (x + 500) * monthlyRate 6)
      = fun b : ℝ => (b + 500) * q6 := by
    funext x
    rw [monthlyRate6]
    ring
  rw [hfg]

theorem cfgC1_recorded :
    ((calculateData cfgC1).map (fun r => r.balance))[14]? = some (jsRound (codeIterC1 180)) := by
  rw [balance_columns cfgC1]
  rw [show cfgC1.durationYears = 15 from rfl]
  rw [List.getElem?_map, List.getElem?_range (by norm_num : 14 < 15)]
  show some (if cfgC1.reinvestGains then jsRound (specTrueYears cfgC1 15)
    else jsRound ((specFalseYears cfgC1 15).1 + (specFalseYears cfgC1 15).2)) = _
  rw [if_pos (show cfgC1.reinvestGains = true from rfl), cfgC1_final]

theorem iter_diff : ∀ n : ℕ, codeIterC1 n = claimIterC1 n + 500 * (q6 ^ n - 1)
  | 0 => by simp [codeIterC1, claimIterC1]
  | n + 1 => by
    have ih := iter_diff n
    unfold codeIterC1 claimIterC1 at ih ⊢
    rw [Function.iterate_succ_apply', Function.iterate_succ_apply', ih]
    ring

theorem q6_pow_180 : q6 ^ (180 : ℕ) = (1.06 : ℝ) ^ (15 : ℕ) := by
  unfold q6
  rw [← Real.rpow_natCast ((1.06 : ℝ) ^ ((1 : ℝ) / 12)) 180,
    ← Real.rpow_mul (by norm_num : (0 : ℝ) ≤ 1.06),
    show ((1 : ℝ) / 12 * (180 : ℕ)) = ((15 : ℕ) : ℝ) by norm_num,
    Real.rpow_natCast]

theorem diff_big : (1 : ℝ) < 500 * (q6 ^ (180 : ℕ) - 1) := by
  rw [q6_pow_180]
  norm_num

theorem jsRound_lt (c d : ℝ) (hd : 1 < d) : jsRound c < jsRound (c + d) := by
  unfold jsRound
  have h : c + 1 / 2 + 1 ≤ c + d + 1 / 2 := by linarith
  calc ⌊c + 1 / 2⌋ < ⌊c + 1 / 2⌋ + 1 := by omega
    _ = ⌊c + 1 / 2 + 1⌋ := (Int.floor_add_one _).symm
    _ ≤ ⌊c + d + 1 / 2⌋ := Int.floor_le_floor h

/-- C1 amended: in the 30000/6%/500-monthly/15-year reinvesting scenario,
the recorded year-15 balance is the rounding of 180 iterations of
`b ↦ (b + 500) · 1.06^(1/12)` from 30000 — the deposit is added BEFORE
the monthly gain of its month is computed, so each deposit earns the gain
of its own deposit month. -/
theorem compounding_deposit_first :
    ((calculateData cfgC1).map (fun r => r.balance))[14]? = some (jsRound (codeIterC1 180)) :=
  cfgC1_recorded

/-- C1 counterexample: the recorded year-15 balance is NOT the rounding
of 180 iterations of the gain-first recurrence `b ↦ b · 1.06^(1/12) + 500`
stated in the claim; the two final balances differ by
`500 · (1.06^15 − 1) ≈ 698`, which survives rounding. -/
theorem compounding_claim_fails :
    ((calculateData cfgC1).map (fun r => r.balance))[14]? ≠ some (jsRound (claimIterC1 180)) := by
  rw [cfgC1_recorded]
  intro h
  have h2 : jsRound (codeIterC1 180) = jsRound (claimIterC1 180) := Option.some.inj h
  have h3 : jsRound (claimIterC1 180) < jsRound (codeIterC1 180) := by
    rw [iter_diff 180]
    exact jsRound_lt _ _ diff_big
  omega

theorem map2_isSome {f : ℝ → ℝ → ℝ} {a b : Option ℝ} (ha : a.isSome) (hb : b.isSome) :
    (Option.map₂ f a b).isSome := by
  rcases Option.isSome_iff_exists.mp ha with ⟨x, rfl⟩
  rcases Option.isSome_iff_exists.mp hb with ⟨y, rfl⟩
  rfl

theorem applyTxN_some (D : ℕ) (year : ℤ) (month : ℕ) (s : SimStateN) (t : Transaction)
    (hs : allSomeN s) : allSomeN (applyTxN D year month s t) := by
  obtain ⟨h1, h2, h3, h4⟩ := hs
  unfold applyTxN
  split
  · split
    · exact ⟨map2_isSome h1 rfl, h2, map2_isSome h3 rfl, h4⟩
    · split
      · exact ⟨map2_isSome h1 rfl, h2, map2_isSome h3 rfl, h4⟩
      · exact ⟨h1, h2, h3, h4⟩
  · exact ⟨h1, h2, h3, h4⟩

theorem foldlTxN_some (D : ℕ) (year : ℤ) (month : ℕ) :
    ∀ (ts : List Transaction) (s : SimStateN), allSomeN s →
      allSomeN (ts.foldl (applyTxN D year month) s)
  | [], _, hs => hs
  | t :: ts, s, hs => foldlTxN_some D year month ts _ (applyTxN_some D year month s t hs)

theorem monthStepN_some (cfg : Config) (year : ℤ) (r : ℝ) (month : ℕ) (s : SimStateN)
    (hs : allSomeN s) : allSomeN (monthStepN cfg year (some r) month s) := by
  obtain ⟨h1, h2, h3, h4⟩ :=
    foldlTxN_some cfg.durationYears year month cfg.transactions s hs
  have hg : (nMul (cfg.transactions.foldl (applyTxN cfg.durationYears year month) s).balance
      (some r)).isSome := map2_isSome h1 rfl
  unfold monthStepN
  refine ⟨?_, map2_isSome h2 hg, h3, map2_isSome h4 hg⟩
  split
  · exact map2_isSome h1 hg
  · exact h1

theorem runMonthsN_some (cfg : Config) (year : ℤ) (r : ℝ) :
    ∀ (c month : ℕ) (s : SimStateN), allSomeN s →
      allSomeN (runMonthsN cfg year (some r) month c s)
  | 0, _, _, hs => hs
  | c + 1, month, s, hs =>
    runMonthsN_some cfg year r c (month + 1) _ (monthStepN_some cfg year r month s hs)

theorem effRateQ_ge (ps : List YieldPhase) (year : ℤ)
    (hps : ∀ p ∈ ps, (-100 : ℚ) ≤ p.rate) : (-100 : ℚ) ≤ effRateQ ps year := by
  unfold effRateQ
  cases hg : (matchingPhases ps year).getLast? with
  | none => norm_num
  | some p =>
    exact hps p (List.mem_of_mem_filter (List.mem_of_getLast?_eq_some hg))

theorem monthlyRateN_some (pct : ℚ) (h : (-100 : ℚ) ≤ pct) :
    ∃ r : ℝ, monthlyRateN pct = some r := by
  have hb : ¬ ((1 : ℝ) + (pct : ℝ) / 100 < 0) := by
    have h2 : ((-100 : ℚ) : ℝ) ≤ (pct : ℝ) := by exact_mod_cast h
    push_cast at h2
    push_neg
    linarith
  unfold monthlyRateN
  rw [if_neg hb]
  exact ⟨_, rfl⟩

theorem calcFromN_finite (cfg : Config)
    (hrate : ∀ p ∈ cfg.yieldPhases, (-100 : ℚ) ≤ p.rate) :
    ∀ (fuel : ℕ) (year : ℤ) (b tg : Option ℝ), b.isSome → tg.isSome →
      ∀ r ∈ calcFromN cfg year fuel b tg,
        r.balance.isSome ∧ r.deposits.isSome ∧ r.returns.isSome
  | 0, _, _, _, _, _, r, hr => absurd hr (List.not_mem_nil r)
  | fuel + 1, year, b, tg, hb, htg, r, hr => by
    obtain ⟨mr, hmr⟩ := monthlyRateN_some _ (effRateQ_ge cfg.yieldPhases year hrate)
    have hys : allSomeN (yearStateN cfg year b tg) := by
      unfold yearStateN
      rw [hmr]
      exact runMonthsN_some cfg year mr 12 1 _ ⟨hb, htg, rfl, rfl⟩
    obtain ⟨hb1, hg1, hd1, hr1⟩ := hys
    rcases List.mem_cons.mp hr with hr | hr
    · subst hr
      refine ⟨?_, ?_, ?_⟩
      · show (jsRoundN (if cfg.reinvestGains then (yearStateN cfg year b tg).balance
          else nAdd (yearStateN cfg year b tg).balance
            (yearStateN cfg year b tg).totalGains)).isSome
        rw [jsRoundN, Option.isSome_map']
        split
        · exact hb1
        · exact map2_isSome hb1 hg1
      · show (jsRoundN (yearStateN cfg year b tg).yearDeposits).isSome
        rw [jsRoundN, Option.isSome_map']
        exact hd1
      · show (jsRoundN (yearStateN cfg year b tg).yearReturns).isSome
        rw [jsRoundN, Option.isSome_map']
        exact hr1
    · exact calcFromN_finite cfg hrate fuel (year + 1) _ _ hb1 hg1 r hr

/-- C8 amended: the source has no finiteness guard.  Whenever every
configured phase rate is at least −100% (so the pow base is nonnegative)
every monetary output of the engine is a finite number; a rate below
−100% instead makes the monthly rate NaN, which the engine silently
propagates into the recorded results rather than surfacing a failure
(see the counterexample). -/
theorem outputs_finite (cfg : Config)
    (hrate : ∀ p ∈ cfg.yieldPhases, (-100 : ℚ) ≤ p.rate) :
    ∀ r ∈ calculateDataN cfg, r.balance.isSome ∧ r.deposits.isSome ∧ r.returns.isSome :=
  calcFromN_finite cfg hrate cfg.durationYears 1 _ _ rfl rfl

theorem outputs_finite_witness :
    (∀ p ∈ cfgNoTx.yieldPhases, (-100 : ℚ) ≤ p.rate) ∧
    (∀ r ∈ calculateDataN cfgNoTx,
        r.balance.isSome ∧ r.deposits.isSome ∧ r.returns.isSome) :=
  ⟨by simp [cfgNoTx], outputs_finite cfgNoTx (by simp [cfgNoTx])⟩

/-- C8 counterexample: with a phase rate of −200% the pow base is
negative, the monthly rate is NaN, and the engine returns an ordinary
result list whose recorded balance is NaN — no computation failure is
surfaced to the caller and the output is not a finite number. -/
theorem nan_propagates : ¬ ∀ r ∈ calculateDataN cfgNaN, r.balance.isSome = true := by
  have hmr : monthlyRateN (effRateQ cfgNaN.yieldPhases 1) = none := by
    rw [show effRateQ cfgNaN.yieldPhases 1 = -200 from rfl]
    unfold monthlyRateN
    rw [if_pos]
    push_cast
    norm_num
  have hrb : (yearRecordN cfgNaN 1 (some 0) (some 0)).balance = none := by
    show jsRoundN ((runMonthsN cfgNaN 1 (monthlyRateN (effRateQ cfgNaN.yieldPhases 1)) 1 12
      { balance := some 0, totalGains := some 0
        yearDeposits := some 0, yearReturns := some 0 }).balance) = none
    rw [hmr]
    rfl
  intro hall
  have hmem : yearRecordN cfgNaN 1 (some 0) (some 0) ∈ calculateDataN cfgNaN := by
    show yearRecordN cfgNaN 1 (some 0) (some 0) ∈ [yearRecordN cfgNaN 1 (some 0) (some 0)]
    exact List.Mem.head _
  have hsome := hall _ hmem
  rw [hrb] at hsome
  simp at hsome

theorem foldl_middle_id {f : SimState → Transaction → SimState} {t : Transaction}
    (ht : ∀ s, f s t = s) :
    ∀ (l1 l2 : List Transaction) (s : SimState),
      (l1 ++ t :: l2).foldl f s = (l1 ++ l2).foldl f s
  | [], l2, s => by simp only [List.nil_append, List.foldl_cons, ht]
  | a :: l1, l2, s => by
    simp only [List.cons_append, List.foldl_cons]
    exact foldl_middle_id ht l1 l2 (f s a)

theorem calculateData_drop_tx (cfg : Config) (t : Transaction) (l1 l2 : List Transaction)
    (hsplit : cfg.transactions = l1 ++ t :: l2)
    (ht : ∀ (year : ℤ) (month : ℕ) (s : SimState),
        applyTx cfg.durationYears year month s t = s) :
    calculateData cfg = calculateData { cfg with transactions := l1 ++ l2 } := by
  have hms : ∀ (year : ℤ) (r : ℝ) (m : ℕ) (s : SimState),
      monthStep cfg year r m s
        = monthStep { cfg with transactions := l1 ++ l2 } year r m s := by
    intro year r m s
    unfold monthStep
    have hfold : cfg.transactions.foldl (applyTx cfg.durationYears year m) s
        = (l1 ++ l2).foldl (applyTx cfg.durationYears year m) s := by
      rw [hsplit]
      exact foldl_middle_id (ht year m) l1 l2 s
    rw [hfold]
  have hrm : ∀ (year : ℤ) (r : ℝ) (c m : ℕ) (s : SimState),
      runMonths cfg year r m c s
        = runMonths { cfg with transactions := l1 ++ l2 } year r m c s := by
    intro year r c
    induction c with
    | zero => intro m s; rfl
    | succ c ih =>
      intro m s
      simp only [runMonths]
      rw [hms]
      exact ih (m + 1) _
  have hys : ∀ (year : ℤ) (b tg : ℝ),
      yearState cfg year b tg = yearState { cfg with transactions := l1 ++ l2 } year b tg := by
    intro year b tg
    unfold yearState
    rw [hrm]
  have hyr : ∀ (year : ℤ) (b tg : ℝ),
      yearRecord cfg year b tg = yearRecord { cfg with transactions := l1 ++ l2 } year b tg := by
    intro year b tg
    unfold yearRecord
    rw [hys]
  have hcf : ∀ (fuel : ℕ) (year : ℤ) (b tg : ℝ),
      calcFrom cfg year fuel b tg
        = calcFrom { cfg with transactions := l1 ++ l2 } year fuel b tg := by
    intro fuel
    induction fuel with
    | zero => intro year b tg; rfl
    | succ fuel ih =>
      intro year b tg
      simp only [calcFrom]
      rw [hyr, hys, ih]
  unfold calculateData
  rw [hcf]

theorem applyTx_unknown (D : ℕ) (year : ℤ) (month : ℕ) (t : Transaction)
    (hm : t.type ≠ "monthly") (ho : t.type ≠ "once") (s : SimState) :
    applyTx D year month s t = s := by
  unfold applyTx
  by_cases hA : isActive D t year <;> simp [hA, hm, ho]

theorem isActive_inverted (D : ℕ) (t : Transaction) (year : ℤ)
    (hm : t.type = "monthly") (hc : t.customDuration = true) (hy : t.endYear < t.startYear) :
    isActive D t year = false := by
  unfold isActive effectiveEnd
  simp only [hm, hc]
  simp
  omega

theorem applyTx_inactive (D : ℕ) (year : ℤ) (month : ℕ) (t : Transaction)
    (h : isActive D t year = false) (s : SimState) :
    applyTx D year month s t = s := by
  unfold applyTx
  simp [h]

/-- C9 amended: a transaction whose type string is neither `monthly` nor
`once` is silently ignored by the engine — the results equal those of the
same input without it, and no validation error exists — while inverted
year ranges (endYear < startYear on a custom monthly transaction) are a
silent non-match active in no year. -/
theorem unknown_type_silent (cfg : Config) (t : Transaction) (l1 l2 : List Transaction)
    (hm : t.type ≠ "monthly") (ho : t.type ≠ "once")
    (hsplit : cfg.transactions = l1 ++ t :: l2) :
    calculateData cfg = calculateData { cfg with transactions := l1 ++ l2 } ∧
    (∀ (D : ℕ) (u : Transaction) (year : ℤ),
        u.type = "monthly" → u.customDuration = true → u.endYear < u.startYear →
        isActive D u year = false) :=
  ⟨calculateData_drop_tx cfg t l1 l2 hsplit
      (fun year month s => applyTx_unknown _ year month t hm ho s),
   fun D u year hm2 hc2 hy2 => isActive_inverted D u year hm2 hc2 hy2⟩

theorem unknown_type_silent_witness :
    txWeekly.type ≠ "monthly" ∧ txWeekly.type ≠ "once" ∧
    cfgWeekly.transactions = [] ++ txWeekly :: [] ∧
    (calculateData cfgWeekly
        = calculateData { cfgWeekly with transactions := ([] : List Transaction) ++ [] } ∧
     (∀ (D : ℕ) (u : Transaction) (year : ℤ),
        u.type = "monthly" → u.customDuration = true → u.endYear < u.startYear →
        isActive D u year = false)) :=
  ⟨by decide, by decide, rfl,
   unknown_type_silent cfgWeekly txWeekly [] [] (by decide) (by decide) rfl⟩

/-- C9 counterexample: the engine does not reject an input containing a
transaction of unknown type with a validation error — it returns the
ordinary one-row result list, identical to the run without that
transaction. -/
theorem unknown_type_not_rejected :
    calculateData cfgWeekly = calculateData cfgNoTx ∧
    (calculateData cfgWeekly).length = 1 := by
  constructor
  · have h := calculateData_drop_tx cfgWeekly txWeekly [] [] rfl
      (fun year month s => applyTx_unknown _ year month txWeekly
        (by decide) (by decide) s)
    exact h
  · rw [calculateData_map]
    rfl

theorem foldl_invest (D : ℕ) :
    ∀ (ts : List Transaction) (a : ℝ),
      ts.foldl (fun acc t => acc + investTerm D t) a = a + (ts.map (investTerm D)).sum
  | [], a => by simp
  | t :: ts, a => by
    simp only [List.foldl_cons, List.map_cons, List.sum_cons, foldl_invest D ts]
    ring

theorem totalInvested_eq (cfg : Config) :
    totalInvested cfg
      = cfg.initialCapital + (cfg.transactions.map (investTerm cfg.durationYears)).sum := by
  unfold totalInvested
  rw [show (fun (acc : ℝ) (t : Transaction) => acc + t.amount *
        (if t.type == "monthly"
         then (((effectiveEnd cfg.durationYears t - t.startYear + 1) * 12 : ℤ) : ℝ)
         else 1))
      = (fun acc t => acc + investTerm cfg.durationYears t) from rfl]
  rw [foldl_invest, zero_add]

/-- C10 amended: a custom monthly transaction with endYear < startYear is
applied in no year, so the simulated balances are unchanged, while
totalInvested adds amount × (endYear − startYear + 1) × 12 — a
NON-POSITIVE occurrence count: for a positive amount the reported total
strictly decreases when endYear < startYear − 1, and is unchanged when
endYear = startYear − 1 (the count is then zero, not negative). -/
theorem degenerate_monthly (cfg : Config) (t : Transaction) (l1 l2 : List Transaction)
    (hm : t.type = "monthly") (hc : t.customDuration = true) (hy : t.endYear < t.startYear)
    (hsplit : cfg.transactions = l1 ++ t :: l2) :
    calculateData cfg = calculateData { cfg with transactions := l1 ++ l2 } ∧
    totalInvested cfg = totalInvested { cfg with transactions := l1 ++ l2 }
      + t.amount * (((t.endYear - t.startYear + 1) * 12 : ℤ) : ℝ) ∧
    (t.endYear - t.startYear + 1) * 12 ≤ 0 ∧
    (0 < t.amount → t.endYear + 1 < t.startYear →
      totalInvested cfg < totalInvested { cfg with transactions := l1 ++ l2 }) ∧
    (t.endYear + 1 = t.startYear →
      totalInvested cfg = totalInvested { cfg with transactions := l1 ++ l2 }) := by
  have hterm : investTerm cfg.durationYears t
      = t.amount * (((t.endYear - t.startYear + 1) * 12 : ℤ) : ℝ) := by
    unfold investTerm effectiveEnd
    simp [hm, hc]
  have htot : totalInvested cfg = totalInvested { cfg with transactions := l1 ++ l2 }
      + t.amount * (((t.endYear - t.startYear + 1) * 12 : ℤ) : ℝ) := by
    rw [totalInvested_eq, totalInvested_eq, hsplit]
    show cfg.initialCapital + ((l1 ++ t :: l2).map (investTerm cfg.durationYears)).sum = _
    rw [List.map_append, List.map_cons, List.sum_append, List.sum_cons,
      List.map_append, List.sum_append, hterm]
    ring
  refine ⟨?_, htot, by omega, ?_, ?_⟩
  · exact calculateData_drop_tx cfg t l1 l2 hsplit
      (fun year month s =>
        applyTx_inactive _ year month t (isActive_inverted _ t year hm hc hy) s)
  · intro hpos hlt
    rw [htot]
    have hneg : (((t.endYear - t.startYear + 1) * 12 : ℤ) : ℝ) < 0 := by
      have : ((t.endYear - t.startYear + 1) * 12 : ℤ) < 0 := by omega
      exact_mod_cast this
    nlinarith
  · intro heq
    rw [htot]
    have hzero : ((t.endYear - t.startYear + 1) * 12 : ℤ) = 0 := by omega
    rw [hzero]
    norm_num

theorem degenerate_monthly_witness :
    txGone.type = "monthly" ∧ txGone.customDuration = true ∧ txGone.endYear < txGone.startYear ∧
    cfgGone.transactions = [] ++ txGone :: [] ∧ (0 : ℝ) < txGone.amount ∧
    txGone.endYear + 1 < txGone.startYear ∧
    (calculateData cfgGone
        = calculateData { cfgGone with transactions := ([] : List Transaction) ++ [] } ∧
     totalInvested cfgGone
        = totalInvested { cfgGone with transactions := ([] : List Transaction) ++ [] }
          + txGone.amount * (((txGone.endYear - txGone.startYear + 1) * 12 : ℤ) : ℝ) ∧
     (txGone.endYear - txGone.startYear + 1) * 12 ≤ 0 ∧
     ((0 : ℝ) < txGone.amount → txGone.endYear + 1 < txGone.startYear →
       totalInvested cfgGone
         < totalInvested { cfgGone with transactions := ([] : List Transaction) ++ [] }) ∧
     (txGone.endYear + 1 = txGone.startYear →
       totalInvested cfgGone
         = totalInvested { cfgGone with transactions := ([] : List Transaction) ++ [] })) :=
  ⟨rfl, rfl, by decide, rfl, by norm_num [txGone], by decide,
   degenerate_monthly cfgGone txGone [] [] rfl rfl (by decide) rfl⟩

/-- C10 counterexample: for endYear = startYear − 1 (here start 5,
end 4) the occurrence count (end − start + 1) × 12 is zero, not negative,
so a positive-amount transaction leaves the reported total invested
UNCHANGED — the claimed strict decrease fails. -/
theorem degenerate_no_decrease :
    totalInvested cfgGap = totalInvested cfgGapBase ∧
    ¬ totalInvested cfgGap < totalInvested cfgGapBase := by
  have h : totalInvested cfgGap = totalInvested cfgGapBase := by
    show (1000 : ℝ) + ((0 : ℝ) + 500 *
        (if txGap.type == "monthly"
         then (((effectiveEnd cfgGap.durationYears txGap - txGap.startYear + 1) * 12 : ℤ) : ℝ)
         else 1))
      = (1000 : ℝ) + (0 : ℝ)
    norm_num [txGap, effectiveEnd, cfgGap]
  exact ⟨h, by rw [h]; exact lt_irrefl _⟩

